import Mathlib

/-!
Shallow embedding of `src/api/middleware.rs` from the `rbx-configs`
repository: the two reqwest middlewares `RobloxRateLimitMiddleware` and
`RobloxAuthMiddleware`, together with the shared `RateState` record and
the header-parsing helpers `ingest_headers` and `retry_wait_from_headers`.

Modelling conventions:
* HTTP header maps are association lists `List (String × String)`; lookup
  returns the first pair whose name matches.  All header names used by the
  code are lowercase ASCII, so reqwest's case-insensitive lookup coincides
  with exact matching here.  Header values are modelled as `String`s, so
  the `to_str().ok()` step (which fails only on non-UTF-8 bytes) always
  succeeds in the model; the subsequent `trim().parse::<u64>()` step is
  modelled faithfully and can fail.
* A response body, as consumed by `resp.json::<ErrorResponse>()`, is
  modelled as `Option ErrorResponse`: `none` means the JSON decoding
  fails and the middleware propagates an error.
* Durations are naturals counted in milliseconds (the code only ever
  builds them via `Duration::from_secs` and `Duration::from_millis`).
* The `next` layer of a middleware is a function from the send index
  (0-based, counted across all sends the middleware performs for one
  caller request) to `Except MwError Response`; `.error` models
  `next.run(..)` returning `Err`, which the `?` operator propagates.
* Each middleware run produces a trace of observable events: sends
  (recording the headers the middleware injected), sleeps (with their
  duration in ms) and `warn!`-level log lines.  `debug!` lines are not
  events; no claim mentions them.
* Rust's unbounded loops/recursion are driven by explicit fuel; running
  out of fuel is a distinguished outcome (`none`, resp. `.diverge`),
  and `unwrap()` on `None` is the distinguished outcome `.panicked`.
-/

/-- Body of an error response, `serde`-decoded by the auth middleware
(`src/api/model.rs` / `resp.json::<ErrorResponse>()`). Only the
`message` field is consulted by the code. -/
structure ErrorResponse where
  message : String
  deriving DecidableEq, Repr

/-- An HTTP response as observed by the middlewares: status code, header
list, and the (possibly undecodable) JSON body. -/
structure Response where
  status : Nat
  headers : List (String × String)
  body : Option ErrorResponse
  deriving DecidableEq, Repr

/-- First header value with the given (lowercase) name, mirroring
`resp.headers().get(name)`. -/
def headerGet (resp : Response) (name : String) : Option String :=
  (resp.headers.find? fun p => p.1 = name).map Prod.snd

/-- Rust's `str::trim`: strip leading and trailing whitespace.  Defined
on the character list so that it evaluates inside the kernel. -/
def rustTrim (s : String) : String :=
  ⟨((s.data.dropWhile Char.isWhitespace).reverse.dropWhile
      Char.isWhitespace).reverse⟩

/-- Rust's `str::parse::<u64>`: an optional leading `+`, then one or more
ASCII digits, rejecting the empty string and values outside `u64`. -/
def parseU64 (s : String) : Option Nat :=
  let cs := match s.data with
    | '+' :: rest => rest
    | cs => cs
  if cs ≠ [] ∧ cs.all Char.isDigit then
    let n := cs.foldl (fun acc c => acc * 10 + (c.toNat - 48)) 0
    if n < 2 ^ 64 then some n else none
  else none

/-- The combined `headers().get(name).and_then(to_str).and_then(trim.parse)`
pipeline used throughout the middleware file. -/
def headerU64 (resp : Response) (name : String) : Option Nat :=
  (headerGet resp name).bind fun v => parseU64 (rustTrim v)

/-- Errors crossing the middleware boundary.  `.nextErr` stands for an
arbitrary error returned by the next layer (propagated by `?`);
`.jsonErr` for a failing `resp.json()`; `.middleware s m` for the
`anyhow!("Request failed with status .. : ..")` error built from status
`s` and server message `m`. -/
inductive MwError
  | nextErr
  | jsonErr
  | middleware (status : Nat) (message : String)
  deriving DecidableEq, Repr

instance : DecidableEq (Except MwError Response) := fun
  | .error a, .error b =>
    if h : a = b then .isTrue (by rw [h]) else .isFalse fun hab => h (Except.error.inj hab)
  | .error _, .ok _ => .isFalse fun hab => Except.noConfusion hab
  | .ok _, .error _ => .isFalse fun hab => Except.noConfusion hab
  | .ok a, .ok b =>
    if h : a = b then .isTrue (by rw [h]) else .isFalse fun hab => h (Except.ok.inj hab)

/-- `RateState` (middleware.rs lines 13-17): the shared rate record. -/
structure RateState where
  remaining : Option Nat
  reset_after_secs : Option Nat
  deriving DecidableEq, Repr

namespace RobloxRateLimitMiddleware

/-- `ingest_headers` (middleware.rs lines 46-66) as a pure state
transformer: each field is overwritten exactly when the corresponding
header is present and parses, and kept otherwise. -/
def ingest_headers (st : RateState) (resp : Response) : RateState :=
  let remaining := headerU64 resp "x-ratelimit-remaining"
  let reset_secs := headerU64 resp "x-ratelimit-reset"
  { remaining := if remaining.isSome then remaining else st.remaining
    reset_after_secs := if reset_secs.isSome then reset_secs else st.reset_after_secs }

/-- `retry_wait_from_headers` (middleware.rs lines 68-83), in seconds:
`retry-after`, else `x-ratelimit-reset`, else `1`. -/
def retry_wait_from_headers (resp : Response) : Nat :=
  ((headerU64 resp "retry-after").orElse fun _ =>
    headerU64 resp "x-ratelimit-reset").getD 1

/-- Observable events of one pass through the rate-limit middleware. -/
inductive RLEvent
  | send
  | sleepMs (ms : Nat)
  | warn
  deriving DecidableEq, Repr

/-- Outcome of the rate-limit middleware: the returned
`Result<Response>` plus the event trace, in order. -/
structure RLTrace where
  result : Except MwError Response
  events : List RLEvent
  deriving DecidableEq, Repr

/-- Number of sends in a rate-limit trace. -/
def sendCount (evs : List RLEvent) : Nat :=
  evs.countP fun e => match e with | .send => true | _ => false

/-- Total milliseconds slept before the first send of a trace (the
"preflight" wait of the spec). -/
def preflightSleepMs : List RLEvent → Nat
  | [] => 0
  | .send :: _ => 0
  | .sleepMs ms :: rest => ms + preflightSleepMs rest
  | .warn :: rest => preflightSleepMs rest

/-- First sleep duration occurring in a trace, if any. -/
def firstSleep? (evs : List RLEvent) : Option Nat :=
  evs.findSome? fun e => match e with | .sleepMs ms => some ms | _ => none

/-- Body of the `for attempt in 0..=self.max_429_retries` loop of
`RobloxRateLimitMiddleware::handle` (middleware.rs lines 195-229).
`cloneOk` is whether `req.try_clone()` succeeds (a property of the
request body, constant across attempts); `fuel` counts the loop
iterations still allowed by the `0..=max` range, so `none` is reached
exactly when the `for` loop falls through to the `unreachable!()` at
line 229. -/
def handleGo (maxRetries cushionMs : Nat) (cloneOk : Bool)
    (next : Nat → Except MwError Response) :
    Nat → Nat → Option RLTrace
  | _, 0 => none
  | attempt, fuel + 1 =>
    match next attempt with
    | .error e => some ⟨.error e, [.send]⟩
    | .ok resp =>
      if resp.status ≠ 429 then
        some ⟨.ok resp, [.send]⟩
      else if maxRetries ≤ attempt then
        some ⟨.ok resp, [.send]⟩
      else
        let wait := 1000 * retry_wait_from_headers resp + cushionMs
        if cloneOk then
          match handleGo maxRetries cushionMs cloneOk next (attempt + 1) fuel with
          | some t => some ⟨t.result, .send :: .warn :: .sleepMs wait :: t.events⟩
          | none => none
        else
          some ⟨.ok resp, [.send, .warn, .sleepMs wait]⟩

/-- `RobloxRateLimitMiddleware::handle` (middleware.rs lines 188-230):
the loop entered at `attempt = 0` with the `0..=max_429_retries` range,
i.e. `maxRetries + 1` iterations of fuel. -/
def handle (maxRetries cushionMs : Nat) (cloneOk : Bool)
    (next : Nat → Except MwError Response) : Option RLTrace :=
  handleGo maxRetries cushionMs cloneOk next 0 (maxRetries + 1)

/-- `handle` together with the shared rate state it could observe: the
body of `handle` never reads nor writes `self.state` (no call to
`ingest_headers`, no preflight read), so the state component passes
through unchanged. -/
def handleWithState (st : RateState) (maxRetries cushionMs : Nat)
    (cloneOk : Bool) (next : Nat → Except MwError Response) :
    RateState × Option RLTrace :=
  (st, handle maxRetries cushionMs cloneOk next)

end RobloxRateLimitMiddleware

namespace RobloxAuthMiddleware

/-- Mutable state of `RobloxAuthMiddleware` (middleware.rs lines 26-30):
the cached CSRF token (`csrf_token`) and the ETag-warning dedup flag
(`seen_etag`). -/
structure AuthState where
  csrf : Option String
  seen : Bool
  deriving DecidableEq, Repr

/-- A request as the auth middleware manipulates it: the two headers the
middleware may insert (lines 123-130), and whether `req.try_clone()`
succeeds (a property of the request body). -/
structure AReq where
  csrfHeader : Option String
  cookieHeader : Option String
  cloneOk : Bool
  deriving DecidableEq, Repr

/-- Observable events of one pass through the auth middleware.  Each
`send` records the `x-csrf-token` and `cookie` headers carried by the
request handed to the next layer. -/
inductive AuthEvent
  | send (csrf cookie : Option String)
  | sleepMs (ms : Nat)
  | warn
  deriving DecidableEq, Repr

/-- Outcome of the auth middleware.  `.panicked` models the
`req.try_clone().unwrap()` at line 134 hitting `None`; `.diverge` models
running out of fuel in the unbounded self-retry recursion. -/
inductive AuthRes
  | ok (r : Response)
  | err (e : MwError)
  | panicked
  | diverge
  deriving DecidableEq, Repr

/-- Result of a run of the auth middleware: the outcome, the final
shared state, and the event trace in order. -/
structure AuthTrace where
  res : AuthRes
  st : AuthState
  events : List AuthEvent
  deriving DecidableEq, Repr

/-- Number of sends in an auth trace. -/
def aSendCount : List AuthEvent → Nat
  | [] => 0
  | .send _ _ :: rest => aSendCount rest + 1
  | _ :: rest => aSendCount rest

/-- The csrf header of each send, in order. -/
def sentCsrf : List AuthEvent → List (Option String)
  | [] => []
  | .send c _ :: rest => c :: sentCsrf rest
  | _ :: rest => sentCsrf rest

/-- Number of `warn!` lines in an auth trace. -/
def warnCount : List AuthEvent → Nat
  | [] => 0
  | .warn :: rest => warnCount rest + 1
  | _ :: rest => warnCount rest

/-- The sleeps of an auth trace, in order, in milliseconds. -/
def sleeps : List AuthEvent → List Nat
  | [] => []
  | .sleepMs ms :: rest => ms :: sleeps rest
  | _ :: rest => sleeps rest

/-- `RobloxAuthMiddleware::handle` (middleware.rs lines 117-183).
`jar` is the cookie header the global cookie jar yields for the request
URL, if any; `next idx` is the response of the next layer to the
`idx`-th send this middleware performs for one caller request (each
recursion level sends exactly once before recursing, so the recursion
depth is the send index).  `fuel` bounds the recursion depth, which the
Rust code leaves unbounded. -/
def handleGo (jar : Option String) (next : Nat → Except MwError Response) :
    AReq → AuthState → Nat → Nat → AuthTrace
  | _, st, _, 0 => ⟨.diverge, st, []⟩
  | req, st, idx, fuel + 1 =>
    -- lines 123-126: insert the cached csrf token, if any
    let req := match st.csrf with
      | some t => { req with csrfHeader := some t }
      | none => req
    -- lines 128-130: insert the cookie header, if the jar has cookies
    let req := match jar with
      | some c => { req with cookieHeader := some c }
      | none => req
    -- line 134: `req.try_clone().unwrap()` — panics when the body
    -- cannot be duplicated; otherwise the clone is sent and `req` kept
    if req.cloneOk = false then ⟨.panicked, st, []⟩
    else
      let sendEv := AuthEvent.send req.csrfHeader req.cookieHeader
      match next idx with
      | .error e => ⟨.err e, st, [sendEv]⟩
      | .ok resp =>
        -- lines 137-145: cache a fresh csrf token from the response
        let tok := headerGet resp "x-csrf-token"
        let st := match tok with
          | some t => { st with csrf := some t }
          | none => st
        let didUpdate := tok.isSome
        -- lines 147-152: retry once-per-refresh on 403 with a new token
        if resp.status = 403 ∧ didUpdate = true then
          let t := handleGo jar next req st (idx + 1) fuel
          ⟨t.res, t.st, sendEv :: t.events⟩
        else if resp.status = 400 then
          -- line 156: `resp.json::<ErrorResponse>().await?`
          match resp.body with
          | none => ⟨.err .jsonErr, st, [sendEv]⟩
          | some body =>
            if body.message = "ETagMismatch" then
              -- lines 158-172: warn once per contiguous run, sleep 1 s,
              -- retry, clear the flag if this frame set it
              let seen := st.seen
              let (st, warnEvs) :=
                if seen = false then ({ st with seen := true }, [AuthEvent.warn])
                else (st, [])
              let t := handleGo jar next req st (idx + 1) fuel
              let st' := if seen = false then { t.st with seen := false } else t.st
              ⟨t.res, st', sendEv :: warnEvs ++ AuthEvent.sleepMs 1000 :: t.events⟩
            else
              -- lines 175-179: non-retryable, surfaced as an error
              ⟨.err (.middleware resp.status body.message), st, [sendEv]⟩
        else
          -- line 182
          ⟨.ok resp, st, [sendEv]⟩

/-- Entry point of the auth middleware: the recursion starts at send
index 0. -/
def handle (jar : Option String) (next : Nat → Except MwError Response)
    (req : AReq) (st : AuthState) (fuel : Nat) : AuthTrace :=
  handleGo jar next req st 0 fuel

end RobloxAuthMiddleware

namespace RobloxRateLimitMiddleware

theorem handleGo_isSome (m c : Nat) (cl : Bool)
    (next : Nat → Except MwError Response) :
    ∀ fuel attempt, 1 ≤ fuel → m + 1 ≤ attempt + fuel →
      (handleGo m c cl next attempt fuel).isSome := by
  intro fuel
  induction fuel with
  | zero => intro attempt h1 _; exact absurd h1 (by omega)
  | succ f ih =>
    intro attempt _ hsum
    simp only [handleGo]
    cases hn : next attempt with
    | error e => simp
    | ok resp =>
      by_cases h429 : resp.status ≠ 429
      · simp [h429]
      · by_cases hle : m ≤ attempt
        · simp [h429, hle]
        · have hf : 1 ≤ f := by omega
          have hrec := ih (attempt + 1) hf (by omega)
          cases hr : handleGo m c cl next (attempt + 1) f with
          | none => rw [hr] at hrec; simp at hrec
          | some t => cases cl <;> simp [h429, hle, hr]

theorem handleGo_events_no_preflight (m c : Nat) (cl : Bool)
    (next : Nat → Except MwError Response) (fuel attempt : Nat) (t : RLTrace)
    (h : handleGo m c cl next attempt fuel = some t) :
    preflightSleepMs t.events = 0 := by
  cases fuel with
  | zero => simp [handleGo] at h
  | succ f =>
    simp only [handleGo] at h
    cases hn : next attempt with
    | error e =>
      rw [hn] at h
      cases h
      simp [preflightSleepMs]
    | ok resp =>
      rw [hn] at h
      repeat' split at h
      all_goals cases h
      all_goals simp [preflightSleepMs]

theorem handleGo_const429 (m c : Nat)
    (next : Nat → Except MwError Response) (resp : Response)
    (hnext : ∀ i, next i = .ok resp) (h429 : resp.status = 429) :
    ∀ fuel attempt, 1 ≤ fuel → attempt + fuel = m + 1 →
      ∃ evs, handleGo m c true next attempt fuel = some ⟨.ok resp, evs⟩ ∧
        sendCount evs = fuel := by
  intro fuel
  induction fuel with
  | zero => intro attempt h1 _; exact absurd h1 (by omega)
  | succ f ih =>
    intro attempt _ hsum
    simp only [handleGo, hnext attempt]
    by_cases hle : m ≤ attempt
    · have hf0 : f = 0 := by omega
      subst hf0
      refine ⟨[.send], ?_, by simp [sendCount]⟩
      simp [h429, hle]
    · have hf : 1 ≤ f := by omega
      obtain ⟨evs, heq, hcount⟩ := ih (attempt + 1) hf (by omega)
      refine ⟨.send :: .warn :: .sleepMs (1000 * retry_wait_from_headers resp + c) :: evs,
        ?_, ?_⟩
      · simp [h429, hle, heq]
      · simp [sendCount, List.countP_cons] at hcount ⊢
        omega

end RobloxRateLimitMiddleware

namespace RobloxAuthMiddleware

theorem handleGo_nonreplayable (jar : Option String)
    (next : Nat → Except MwError Response) (c0 k0 : Option String)
    (st : AuthState) (idx fuel : Nat) (hf : 1 ≤ fuel) :
    handleGo jar next ⟨c0, k0, false⟩ st idx fuel = ⟨.panicked, st, []⟩ := by
  obtain ⟨f, rfl⟩ : ∃ f, fuel = f + 1 := ⟨fuel - 1, by omega⟩
  obtain ⟨t0, s0⟩ := st
  cases t0 <;> cases jar <;> simp [handleGo]

theorem etagGo_seen_true (jar : Option String)
    (next : Nat → Except MwError Response) (fin : Response)
    (hfin : fin.status = 200) :
    ∀ j idx (c0 k0 t0 : Option String),
      (∀ i, i < j → ∃ e : Response, next (idx + i) = .ok e ∧
        e.status = 400 ∧ e.body = some ⟨"ETagMismatch"⟩) →
      next (idx + j) = .ok fin →
      ∀ fuel, j + 1 ≤ fuel →
        (handleGo jar next ⟨c0, k0, true⟩ ⟨t0, true⟩ idx fuel).res = .ok fin ∧
        (handleGo jar next ⟨c0, k0, true⟩ ⟨t0, true⟩ idx fuel).st.seen = true ∧
        warnCount (handleGo jar next ⟨c0, k0, true⟩ ⟨t0, true⟩ idx fuel).events = 0 ∧
        sleeps (handleGo jar next ⟨c0, k0, true⟩ ⟨t0, true⟩ idx fuel).events =
          List.replicate j 1000 ∧
        aSendCount (handleGo jar next ⟨c0, k0, true⟩ ⟨t0, true⟩ idx fuel).events =
          j + 1 := by
  intro j
  induction j with
  | zero =>
    intro idx c0 k0 t0 _ hlast fuel hfuel
    obtain ⟨f, rfl⟩ : ∃ f, fuel = f + 1 := ⟨fuel - 1, by omega⟩
    rw [Nat.add_zero] at hlast
    cases htok : headerGet fin "x-csrf-token" <;> cases t0 <;> cases jar <;>
      simp [handleGo, hlast, hfin, htok, warnCount, sleeps, aSendCount]
  | succ jj ih =>
    intro idx c0 k0 t0 hrun hlast fuel hfuel
    obtain ⟨f, rfl⟩ : ∃ f, fuel = f + 1 := ⟨fuel - 1, by omega⟩
    obtain ⟨e, he, hes, heb⟩ := hrun 0 (by omega)
    rw [Nat.add_zero] at he
    have hrun' : ∀ i, i < jj → ∃ e : Response, next (idx + 1 + i) = .ok e ∧
        e.status = 400 ∧ e.body = some ⟨"ETagMismatch"⟩ := by
      intro i hi
      obtain ⟨e', he', hs', hb'⟩ := hrun (i + 1) (by omega)
      exact ⟨e', by rw [show idx + 1 + i = idx + (i + 1) by omega]; exact he', hs', hb'⟩
    have hlast' : next (idx + 1 + jj) = .ok fin := by
      rw [show idx + 1 + jj = idx + (jj + 1) by omega]; exact hlast
    have key := fun (a b c : Option String) =>
      ih (idx + 1) a b c hrun' hlast' f (by omega)
    have kres : ∀ a b c, (handleGo jar next ⟨a, b, true⟩ ⟨c, true⟩ (idx + 1) f).res =
        .ok fin := fun a b c => (key a b c).1
    have kseen : ∀ a b c,
        (handleGo jar next ⟨a, b, true⟩ ⟨c, true⟩ (idx + 1) f).st.seen = true :=
      fun a b c => (key a b c).2.1
    have kwarn : ∀ a b c,
        warnCount (handleGo jar next ⟨a, b, true⟩ ⟨c, true⟩ (idx + 1) f).events = 0 :=
      fun a b c => (key a b c).2.2.1
    have ksleep : ∀ a b c,
        sleeps (handleGo jar next ⟨a, b, true⟩ ⟨c, true⟩ (idx + 1) f).events =
          List.replicate jj 1000 := fun a b c => (key a b c).2.2.2.1
    have ksend : ∀ a b c,
        aSendCount (handleGo jar next ⟨a, b, true⟩ ⟨c, true⟩ (idx + 1) f).events =
          jj + 1 := fun a b c => (key a b c).2.2.2.2
    cases htok : headerGet e "x-csrf-token" <;> cases t0 <;> cases jar <;>
      simp [handleGo, he, hes, heb, htok, warnCount, sleeps, aSendCount,
        List.replicate_succ, kres, kseen, kwarn, ksleep, ksend]

theorem etagGo_diverge (jar : Option String)
    (next : Nat → Except MwError Response)
    (hall : ∀ i, ∃ e : Response, next i = .ok e ∧ e.status = 400 ∧
      e.body = some ⟨"ETagMismatch"⟩) :
    ∀ fuel idx (c0 k0 t0 : Option String) (s0 : Bool),
      (handleGo jar next ⟨c0, k0, true⟩ ⟨t0, s0⟩ idx fuel).res = .diverge := by
  intro fuel
  induction fuel with
  | zero => intro idx c0 k0 t0 s0; simp [handleGo]
  | succ f ih =>
    intro idx c0 k0 t0 s0
    obtain ⟨e, he, hes, heb⟩ := hall idx
    have kres : ∀ (a b c : Option String) (s : Bool),
        (handleGo jar next ⟨a, b, true⟩ ⟨c, s⟩ (idx + 1) f).res = .diverge :=
      fun a b c s => ih (idx + 1) a b c s
    cases htok : headerGet e "x-csrf-token" <;> cases t0 <;> cases jar <;>
      cases s0 <;> simp [handleGo, he, hes, heb, htok, kres]

end RobloxAuthMiddleware

namespace ClaimsRL

open RobloxRateLimitMiddleware

/-- Claim C1, counterexample.  With the cached rate state holding
`remainingBudget = 0` and `resetAfterSeconds = 2`, a request is
forwarded with a total preflight sleep of 0 ms — not the claimed
`≥ 2 s + 75 ms`: `handle` never consults the cached state and performs
no preflight wait at all. -/
theorem c1_counterexample :
    (handleWithState ⟨some 0, some 2⟩ 5 75 true
        (fun _ => .ok ⟨200, [], none⟩)).2 =
      some ⟨.ok ⟨200, [], none⟩, [.send]⟩ ∧
    preflightSleepMs [RLEvent.send] = 0 ∧
    ¬ 2075 ≤ preflightSleepMs [RLEvent.send] := by
  decide

/-- Claim C1, amended: the rate-limit middleware performs no preflight
wait whatsoever.  The cached rate state is neither read nor written by
`handle` (the trace is independent of it and it passes through
unchanged), and no sleep ever precedes the first send of a request. -/
theorem c1_no_preflight_wait (st st' : RateState) (m c : Nat) (cl : Bool)
    (next : Nat → Except MwError Response) :
    (handleWithState st m c cl next).1 = st ∧
    (handleWithState st m c cl next).2 = (handleWithState st' m c cl next).2 ∧
    ∀ t, (handleWithState st m c cl next).2 = some t →
      preflightSleepMs t.events = 0 := by
  refine ⟨rfl, rfl, fun t h => ?_⟩
  exact handleGo_events_no_preflight m c cl next (m + 1) 0 t h

/-- Witness for the amended C1 at a concrete input. -/
theorem c1_no_preflight_wait_witness :
    preflightSleepMs (RLTrace.events ⟨.ok ⟨200, [], none⟩, [.send]⟩) = 0 :=
  (c1_no_preflight_wait ⟨some 0, some 2⟩ ⟨none, none⟩ 5 75 true
    (fun _ => .ok ⟨200, [], none⟩)).2.2
    ⟨.ok ⟨200, [], none⟩, [.send]⟩ (by decide)

/-- Claim C2: the code evaluated at the failing input.  A response
carrying parseable `x-ratelimit-remaining`/`x-ratelimit-reset` headers
leaves the shared rate state unchanged after `handle`, because `handle`
never calls `ingest_headers`; the second conjunct shows `ingest_headers`
itself — defined but dead — would have produced exactly the cached
values the claim describes. -/
theorem c2_state_not_ingested :
    (handleWithState ⟨none, none⟩ 5 75 true
        (fun _ => .ok ⟨200,
          [("x-ratelimit-remaining", "3"), ("x-ratelimit-reset", "5")],
          none⟩)).1 = ⟨none, none⟩ ∧
    ingest_headers ⟨none, none⟩
        ⟨200, [("x-ratelimit-remaining", "3"), ("x-ratelimit-reset", "5")],
          none⟩ =
      ⟨some 3, some 5⟩ := by
  decide

/-- Claim C3: with a replayable body and a next layer answering 429 on
every attempt, `handle` with `max_429_retries = R` sends exactly `R + 1`
requests and returns the final 429 response as `Ok`. -/
theorem c3_always_429_sends_r_plus_1 (R c : Nat)
    (next : Nat → Except MwError Response) (resp : Response)
    (hnext : ∀ i, next i = .ok resp) (h429 : resp.status = 429) :
    ∃ t, handle R c true next = some t ∧ t.result = .ok resp ∧
      sendCount t.events = R + 1 := by
  obtain ⟨evs, heq, hc⟩ :=
    handleGo_const429 R c next resp hnext h429 (R + 1) 0 (by omega) (by omega)
  exact ⟨⟨.ok resp, evs⟩, heq, rfl, hc⟩

/-- Witness for C3 at a concrete input (`R = 2`). -/
theorem c3_always_429_sends_r_plus_1_witness :
    ∃ t, handle 2 75 true (fun _ => .ok ⟨429, [], none⟩) = some t ∧
      t.result = .ok ⟨429, [], none⟩ ∧ sendCount t.events = 2 + 1 :=
  c3_always_429_sends_r_plus_1 2 75 _ ⟨429, [], none⟩ (fun _ => rfl) rfl

/-- Claim C7: on a 429 that triggers a retry, the slept duration is the
`retry-after` header if present and parseable, else the
`x-ratelimit-reset` header if present and parseable, else 1 second —
plus the fixed 75 ms cushion. -/
theorem c7_retry_wait_precedence (R : Nat) (cl : Bool)
    (next : Nat → Except MwError Response) (resp : Response)
    (hnext : next 0 = .ok resp) (h429 : resp.status = 429) (hR : 1 ≤ R) :
    retry_wait_from_headers resp =
      (match headerU64 resp "retry-after" with
       | some s => s
       | none =>
         match headerU64 resp "x-ratelimit-reset" with
         | some s => s
         | none => 1) ∧
    ∃ t, handle R 75 cl next = some t ∧
      firstSleep? t.events =
        some (1000 * retry_wait_from_headers resp + 75) := by
  constructor
  · cases h1 : headerU64 resp "retry-after" <;>
      cases h2 : headerU64 resp "x-ratelimit-reset" <;>
      simp [retry_wait_from_headers, h1, h2, Option.orElse]
  · have hnR : ¬ R ≤ 0 := by omega
    simp only [handle, handleGo, hnext]
    cases cl with
    | false =>
      refine ⟨⟨.ok resp,
          [.send, .warn, .sleepMs (1000 * retry_wait_from_headers resp + 75)]⟩,
        ?_, ?_⟩
      · simp [h429, hnR]
      · simp [firstSleep?, List.findSome?]
    | true =>
      have hs := handleGo_isSome R 75 true next R 1 (by omega) (by omega)
      cases hr : handleGo R 75 true next 1 R with
      | none => rw [hr] at hs; simp at hs
      | some t' =>
        refine ⟨⟨t'.result, .send :: .warn ::
            .sleepMs (1000 * retry_wait_from_headers resp + 75) :: t'.events⟩,
          ?_, ?_⟩
        · simp [h429, hnR, hr]
        · simp [firstSleep?, List.findSome?]

/-- Witness for C7 at a concrete input: `retry-after: 9` wins over
`x-ratelimit-reset: 4` and the slept duration is `9 s + 75 ms`. -/
theorem c7_retry_wait_precedence_witness :
    retry_wait_from_headers
        ⟨429, [("retry-after", "9"), ("x-ratelimit-reset", "4")], none⟩ =
      (match headerU64
          ⟨429, [("retry-after", "9"), ("x-ratelimit-reset", "4")], none⟩
          "retry-after" with
       | some s => s
       | none =>
         match headerU64
            ⟨429, [("retry-after", "9"), ("x-ratelimit-reset", "4")], none⟩
            "x-ratelimit-reset" with
         | some s => s
         | none => 1) ∧
    ∃ t, handle 1 75 true
        (fun _ => .ok ⟨429, [("retry-after", "9"), ("x-ratelimit-reset", "4")], none⟩) =
        some t ∧
      firstSleep? t.events =
        some (1000 * retry_wait_from_headers
          ⟨429, [("retry-after", "9"), ("x-ratelimit-reset", "4")], none⟩ + 75) :=
  c7_retry_wait_precedence 1 true _
    ⟨429, [("retry-after", "9"), ("x-ratelimit-reset", "4")], none⟩
    rfl rfl (by decide)

/-- Claim C8, counterexample.  A non-replayable request answered 429 is
indeed returned after a single send with zero retries, but not
immediately: the middleware first sleeps the full computed wait plus
cushion (1075 ms here), because the sleep happens before the clone
check. -/
theorem c8_counterexample :
    RobloxRateLimitMiddleware.handle 5 75 false (fun _ => .ok ⟨429, [], none⟩) =
      some ⟨.ok ⟨429, [], none⟩, [.send, .warn, .sleepMs 1075]⟩ ∧
    firstSleep? [RLEvent.send, RLEvent.warn, RLEvent.sleepMs 1075] =
      some 1075 := by
  decide

/-- Claim C8, amended: for a request whose body cannot be duplicated,
with `max_429_retries ≥ 1`, a 429 response is returned as `Ok` after
exactly one send and zero retries — but only after a sleep of the
computed retry wait plus the 75 ms cushion, which precedes the clone
check. -/
theorem c8_nonreplayable_no_retry (R : Nat)
    (next : Nat → Except MwError Response) (resp : Response)
    (hnext : next 0 = .ok resp) (h429 : resp.status = 429) (hR : 1 ≤ R) :
    handle R 75 false next =
      some ⟨.ok resp,
        [.send, .warn, .sleepMs (1000 * retry_wait_from_headers resp + 75)]⟩ ∧
    sendCount [RLEvent.send, RLEvent.warn,
      RLEvent.sleepMs (1000 * retry_wait_from_headers resp + 75)] = 1 := by
  have hnR : ¬ R ≤ 0 := by omega
  constructor
  · simp only [handle, handleGo, hnext]
    simp [h429, hnR]
  · simp [sendCount]

/-- Witness for the amended C8 at a concrete input. -/
theorem c8_nonreplayable_no_retry_witness :
    handle 5 75 false (fun _ => .ok ⟨429, [("x-ratelimit-reset", "4")], none⟩) =
      some ⟨.ok ⟨429, [("x-ratelimit-reset", "4")], none⟩,
        [.send, .warn, .sleepMs (1000 * retry_wait_from_headers
          ⟨429, [("x-ratelimit-reset", "4")], none⟩ + 75)]⟩ ∧
    sendCount [RLEvent.send, RLEvent.warn,
      RLEvent.sleepMs (1000 * retry_wait_from_headers
        ⟨429, [("x-ratelimit-reset", "4")], none⟩ + 75)] = 1 :=
  c8_nonreplayable_no_retry 5 _ ⟨429, [("x-ratelimit-reset", "4")], none⟩
    rfl rfl (by decide)

/-- Claim C10: the retry loop of `handle` always returns within attempts
`0..=max_429_retries`; the `unreachable!()` after the loop (modelled as
the `none` outcome) is never executed, for every next layer, every
request and every configuration. -/
theorem c10_loop_total (R c : Nat) (cl : Bool)
    (next : Nat → Except MwError Response) :
    (handle R c cl next).isSome :=
  handleGo_isSome R c cl next (R + 1) 0 (by omega) (by omega)

end ClaimsRL

namespace ClaimsAuth

open RobloxAuthMiddleware

/-- Claim C4: a 403 response whose headers carry a fresh anti-forgery
token (cached in that same call) triggers exactly one automatic retry
carrying the new token; the retried request's 403 response arriving
without a token update is returned unchanged, with no further retry.
The trace has exactly two sends, the second with the fresh token. -/
theorem c4_forbidden_single_retry (jar : Option String)
    (next : Nat → Except MwError Response) (c0 k0 csrf0 : Option String)
    (seen0 : Bool) (r1 r2 : Response) (tok : String) (F : Nat)
    (h0 : next 0 = .ok r1) (h1 : next 1 = .ok r2)
    (hs1 : r1.status = 403) (ht1 : headerGet r1 "x-csrf-token" = some tok)
    (hs2 : r2.status = 403) (ht2 : headerGet r2 "x-csrf-token" = none) :
    ∃ c k, handle jar next ⟨c0, k0, true⟩ ⟨csrf0, seen0⟩ (F + 2) =
      ⟨.ok r2, ⟨some tok, seen0⟩, [.send c k, .send (some tok) k]⟩ := by
  cases csrf0 with
  | none =>
    cases jar with
    | none =>
      exact ⟨c0, k0, by simp [handle, handleGo, h0, h1, hs1, hs2, ht1, ht2]⟩
    | some cj =>
      exact ⟨c0, some cj, by simp [handle, handleGo, h0, h1, hs1, hs2, ht1, ht2]⟩
  | some t0 =>
    cases jar with
    | none =>
      exact ⟨some t0, k0, by simp [handle, handleGo, h0, h1, hs1, hs2, ht1, ht2]⟩
    | some cj =>
      exact ⟨some t0, some cj, by simp [handle, handleGo, h0, h1, hs1, hs2, ht1, ht2]⟩

/-- Witness for C4 at a concrete input. -/
theorem c4_forbidden_single_retry_witness :
    ∃ c k, handle none
        (fun i => if i = 0 then .ok ⟨403, [("x-csrf-token", "T2")], none⟩
                  else .ok ⟨403, [], none⟩)
        ⟨none, none, true⟩ ⟨none, false⟩ (3 + 2) =
      ⟨.ok ⟨403, [], none⟩, ⟨some "T2", false⟩,
        [.send c k, .send (some "T2") k]⟩ :=
  c4_forbidden_single_retry none _ none none none false
    ⟨403, [("x-csrf-token", "T2")], none⟩ ⟨403, [], none⟩ "T2" 3
    rfl rfl rfl (by decide) rfl (by decide)

/-- Claim C5: a contiguous run of `k ≥ 1` responses of status 400 with
body message ETagMismatch produces exactly one warning (deduplicated via
the seen flag, which ends cleared), a 1-second sleep before each of the
`k` retries, `k + 1` sends, and the final non-conflict response; and the
retry on this path has no upper bound — with an unending run of such
responses the recursion exhausts any amount of fuel. -/
theorem c5_etag_warn_once_and_unbounded (jar : Option String)
    (next : Nat → Except MwError Response) (c0 k0 t0 : Option String) :
    (∀ (fin : Response) (k fuel : Nat), 1 ≤ k → fin.status = 200 →
      (∀ i, i < k → ∃ e : Response, next i = .ok e ∧ e.status = 400 ∧
        e.body = some ⟨"ETagMismatch"⟩) →
      next k = .ok fin → k + 1 ≤ fuel →
      (handle jar next ⟨c0, k0, true⟩ ⟨t0, false⟩ fuel).res = .ok fin ∧
      (handle jar next ⟨c0, k0, true⟩ ⟨t0, false⟩ fuel).st.seen = false ∧
      warnCount (handle jar next ⟨c0, k0, true⟩ ⟨t0, false⟩ fuel).events = 1 ∧
      sleeps (handle jar next ⟨c0, k0, true⟩ ⟨t0, false⟩ fuel).events =
        List.replicate k 1000 ∧
      aSendCount (handle jar next ⟨c0, k0, true⟩ ⟨t0, false⟩ fuel).events =
        k + 1) ∧
    ((∀ i, ∃ e : Response, next i = .ok e ∧ e.status = 400 ∧
        e.body = some ⟨"ETagMismatch"⟩) →
      ∀ fuel, (handle jar next ⟨c0, k0, true⟩ ⟨t0, false⟩ fuel).res =
        .diverge) := by
  constructor
  · intro fin k fuel hk hfin hrun hlast hfuel
    obtain ⟨kk, rfl⟩ : ∃ kk, k = kk + 1 := ⟨k - 1, by omega⟩
    obtain ⟨f, rfl⟩ : ∃ f, fuel = f + 1 := ⟨fuel - 1, by omega⟩
    obtain ⟨e, he, hes, heb⟩ := hrun 0 (by omega)
    have hrun' : ∀ i, i < kk → ∃ e : Response, next (1 + i) = .ok e ∧
        e.status = 400 ∧ e.body = some ⟨"ETagMismatch"⟩ := by
      intro i hi
      obtain ⟨e', he', hs', hb'⟩ := hrun (i + 1) (by omega)
      exact ⟨e', by rw [show 1 + i = i + 1 by omega]; exact he', hs', hb'⟩
    have hlast' : next (1 + kk) = .ok fin := by
      rw [show 1 + kk = kk + 1 by omega]; exact hlast
    have key := fun (a b c : Option String) =>
      etagGo_seen_true jar next fin hfin kk 1 a b c hrun' hlast' f (by omega)
    have kres : ∀ a b c,
        (handleGo jar next ⟨a, b, true⟩ ⟨c, true⟩ 1 f).res = .ok fin :=
      fun a b c => (key a b c).1
    have kseen : ∀ a b c,
        (handleGo jar next ⟨a, b, true⟩ ⟨c, true⟩ 1 f).st.seen = true :=
      fun a b c => (key a b c).2.1
    have kwarn : ∀ a b c,
        warnCount (handleGo jar next ⟨a, b, true⟩ ⟨c, true⟩ 1 f).events = 0 :=
      fun a b c => (key a b c).2.2.1
    have ksleep : ∀ a b c,
        sleeps (handleGo jar next ⟨a, b, true⟩ ⟨c, true⟩ 1 f).events =
          List.replicate kk 1000 := fun a b c => (key a b c).2.2.2.1
    have ksend : ∀ a b c,
        aSendCount (handleGo jar next ⟨a, b, true⟩ ⟨c, true⟩ 1 f).events =
          kk + 1 := fun a b c => (key a b c).2.2.2.2
    cases htok : headerGet e "x-csrf-token" <;> cases t0 <;> cases jar <;>
      simp [handle, handleGo, he, hes, heb, htok, warnCount, sleeps, aSendCount,
        List.replicate_succ, kres, kseen, kwarn, ksleep, ksend]
  · intro hall fuel
    exact etagGo_diverge jar next hall fuel 0 c0 k0 t0 false

/-- Witness for C5 at concrete inputs: a run of two conflicts then a
200, and an unending run of conflicts with fuel 3. -/
theorem c5_etag_warn_once_and_unbounded_witness :
    ((handle none
        (fun i => if i < 2 then .ok ⟨400, [], some ⟨"ETagMismatch"⟩⟩
                  else .ok ⟨200, [], none⟩)
        ⟨none, none, true⟩ ⟨none, false⟩ 5).res = .ok ⟨200, [], none⟩ ∧
      (handle none
        (fun i => if i < 2 then .ok ⟨400, [], some ⟨"ETagMismatch"⟩⟩
                  else .ok ⟨200, [], none⟩)
        ⟨none, none, true⟩ ⟨none, false⟩ 5).st.seen = false ∧
      warnCount (handle none
        (fun i => if i < 2 then .ok ⟨400, [], some ⟨"ETagMismatch"⟩⟩
                  else .ok ⟨200, [], none⟩)
        ⟨none, none, true⟩ ⟨none, false⟩ 5).events = 1 ∧
      sleeps (handle none
        (fun i => if i < 2 then .ok ⟨400, [], some ⟨"ETagMismatch"⟩⟩
                  else .ok ⟨200, [], none⟩)
        ⟨none, none, true⟩ ⟨none, false⟩ 5).events = List.replicate 2 1000 ∧
      aSendCount (handle none
        (fun i => if i < 2 then .ok ⟨400, [], some ⟨"ETagMismatch"⟩⟩
                  else .ok ⟨200, [], none⟩)
        ⟨none, none, true⟩ ⟨none, false⟩ 5).events = 2 + 1) ∧
    (handle none (fun _ => .ok ⟨400, [], some ⟨"ETagMismatch"⟩⟩)
        ⟨none, none, true⟩ ⟨none, false⟩ 3).res = .diverge :=
  ⟨(c5_etag_warn_once_and_unbounded none _ none none none).1
      ⟨200, [], none⟩ 2 5 (by omega) rfl
      (fun i hi => ⟨⟨400, [], some ⟨"ETagMismatch"⟩⟩, by simp [hi], rfl, rfl⟩)
      (by decide) (by omega),
    (c5_etag_warn_once_and_unbounded none _ none none none).2
      (fun i => ⟨⟨400, [], some ⟨"ETagMismatch"⟩⟩, rfl, rfl, rfl⟩) 3⟩

/-- Claim C6: a 400 response whose body message is not ETagMismatch is
surfaced as an error carrying the original status and the server
message, after a single send, with no retry, no sleep and no warning. -/
theorem c6_bad_request_error (jar : Option String)
    (next : Nat → Except MwError Response) (c0 k0 csrf0 : Option String)
    (seen0 : Bool) (r : Response) (m : String) (F : Nat)
    (h0 : next 0 = .ok r) (hs : r.status = 400) (hb : r.body = some ⟨m⟩)
    (hm : m ≠ "ETagMismatch") :
    (handle jar next ⟨c0, k0, true⟩ ⟨csrf0, seen0⟩ (F + 1)).res =
      .err (.middleware r.status m) ∧
    aSendCount (handle jar next ⟨c0, k0, true⟩ ⟨csrf0, seen0⟩ (F + 1)).events = 1 ∧
    sleeps (handle jar next ⟨c0, k0, true⟩ ⟨csrf0, seen0⟩ (F + 1)).events = [] ∧
    warnCount (handle jar next ⟨c0, k0, true⟩ ⟨csrf0, seen0⟩ (F + 1)).events = 0 := by
  cases htok : headerGet r "x-csrf-token" <;> cases csrf0 <;> cases jar <;>
    simp [handle, handleGo, h0, hs, hb, hm, htok, aSendCount, sleeps, warnCount]

/-- Witness for C6 at a concrete input. -/
theorem c6_bad_request_error_witness :
    (handle none (fun _ => .ok ⟨400, [], some ⟨"InvalidFlag"⟩⟩)
        ⟨none, none, true⟩ ⟨none, false⟩ (0 + 1)).res =
      .err (.middleware (Response.status ⟨400, [], some ⟨"InvalidFlag"⟩⟩) "InvalidFlag") ∧
    aSendCount (handle none (fun _ => .ok ⟨400, [], some ⟨"InvalidFlag"⟩⟩)
        ⟨none, none, true⟩ ⟨none, false⟩ (0 + 1)).events = 1 ∧
    sleeps (handle none (fun _ => .ok ⟨400, [], some ⟨"InvalidFlag"⟩⟩)
        ⟨none, none, true⟩ ⟨none, false⟩ (0 + 1)).events = [] ∧
    warnCount (handle none (fun _ => .ok ⟨400, [], some ⟨"InvalidFlag"⟩⟩)
        ⟨none, none, true⟩ ⟨none, false⟩ (0 + 1)).events = 0 :=
  c6_bad_request_error none _ none none none false
    ⟨400, [], some ⟨"InvalidFlag"⟩⟩ "InvalidFlag" 0 rfl rfl rfl (by decide)

/-- Claim C9, counterexample.  A request whose body cannot be duplicated
makes the auth middleware panic on the `try_clone().unwrap()` at
middleware.rs line 134 — before anything is even sent — instead of
degrading gracefully to non-retried semantics and returning the first
obtained response. -/
theorem c9_counterexample :
    RobloxAuthMiddleware.handle none (fun _ => .ok ⟨200, [], none⟩)
        ⟨none, none, false⟩ ⟨none, false⟩ 5 =
      ⟨.panicked, ⟨none, false⟩, []⟩ ∧
    AuthRes.panicked ≠ .ok ⟨200, [], none⟩ := by
  decide

/-- Claim C9, amended: only the rate-limit middleware degrades
gracefully on a non-duplicable body — it sends once, performs no retry
and returns the first obtained response or error; the auth middleware
instead unwraps the failed duplication and panics on every request with
such a body, sending nothing. -/
theorem c9_nonreplayable_degradation :
    (∀ (R c : Nat) (next : Nat → Except MwError Response),
      ∃ t, RobloxRateLimitMiddleware.handle R c false next = some t ∧
        t.result = next 0 ∧
        RobloxRateLimitMiddleware.sendCount t.events = 1) ∧
    (∀ (jar : Option String) (next : Nat → Except MwError Response)
        (c0 k0 : Option String) (st : AuthState) (fuel : Nat), 1 ≤ fuel →
      RobloxAuthMiddleware.handle jar next ⟨c0, k0, false⟩ st fuel =
        ⟨.panicked, st, []⟩) := by
  constructor
  · intro R c next
    cases hn : next 0 with
    | error e =>
      refine ⟨⟨.error e, [.send]⟩, ?_, rfl, rfl⟩
      simp [RobloxRateLimitMiddleware.handle, RobloxRateLimitMiddleware.handleGo, hn]
    | ok resp =>
      by_cases h429 : resp.status ≠ 429
      · refine ⟨⟨.ok resp, [.send]⟩, ?_, rfl, rfl⟩
        simp [RobloxRateLimitMiddleware.handle, RobloxRateLimitMiddleware.handleGo,
          hn, h429]
      · by_cases hR : R ≤ 0
        · refine ⟨⟨.ok resp, [.send]⟩, ?_, rfl, rfl⟩
          simp [RobloxRateLimitMiddleware.handle, RobloxRateLimitMiddleware.handleGo,
            hn, h429, hR]
        · refine ⟨⟨.ok resp, [.send, .warn,
              .sleepMs (1000 * RobloxRateLimitMiddleware.retry_wait_from_headers resp
                + c)]⟩, ?_, rfl, rfl⟩
          simp [RobloxRateLimitMiddleware.handle, RobloxRateLimitMiddleware.handleGo,
            hn, h429, hR]
  · intro jar next c0 k0 st fuel hf
    exact RobloxAuthMiddleware.handleGo_nonreplayable jar next c0 k0 st 0 fuel hf

/-- Witness for the amended C9 at concrete inputs. -/
theorem c9_nonreplayable_degradation_witness :
    (∃ t, RobloxRateLimitMiddleware.handle 5 75 false
        (fun _ => .ok ⟨429, [], none⟩) = some t ∧
      t.result = (fun _ => (.ok ⟨429, [], none⟩ : Except MwError Response)) 0 ∧
      RobloxRateLimitMiddleware.sendCount t.events = 1) ∧
    RobloxAuthMiddleware.handle none (fun _ => .ok ⟨200, [], none⟩)
        ⟨none, none, false⟩ ⟨none, false⟩ 5 = ⟨.panicked, ⟨none, false⟩, []⟩ :=
  ⟨c9_nonreplayable_degradation.1 5 75 _,
    c9_nonreplayable_degradation.2 none _ none none ⟨none, false⟩ 5 (by omega)⟩

end ClaimsAuth
